import Mathlib

/-!
Shallow embedding of `pdfp/operations/tts.py`: the text-to-speech progress
observer (`QueueHandler.emit`) and the conversion orchestrator
(`Converter.convert`), together with theorems settling the specification
claims about them.
-/

namespace PdfpTTS

/-! ### String primitives

`Converter.convert` checks `pdf.lower().endswith(ext)` for the extensions
`.pdf` and `.txt`; `QueueHandler.emit` runs `re.search` for the patterns
`text_parts: (\d+)` and `part-(\d+) created`.  These are modelled on
`List Char`. -/

/-- Characterwise lowercasing of a string, as `str.lower()` acts on the
ASCII filenames involved. -/
def lowerChars (s : String) : List Char := s.toList.map Char.toLower

/-- Boolean prefix test on character lists. -/
def isPrefixL : List Char → List Char → Bool
  | [], _ => true
  | _ :: _, [] => false
  | a :: as, b :: bs => a == b && isPrefixL as bs

/-- Boolean suffix test on character lists, as Python `str.endswith`. -/
def endsWithL (l suf : List Char) : Bool := isPrefixL suf.reverse l.reverse

/-- The extension allow-list test performed at the top of
`Converter.convert`: `any(pdf.lower().endswith(ext) for ext in ['.pdf', '.txt'])`. -/
def validExt (pdf : String) : Bool :=
  endsWithL (lowerChars pdf) ".pdf".toList || endsWithL (lowerChars pdf) ".txt".toList

/-- Strip a literal from the front of a character list, or fail. -/
def dropLit : List Char → List Char → Option (List Char)
  | [], s => some s
  | _ :: _, [] => none
  | a :: as, b :: bs => if a == b then dropLit as bs else none

/-- Split off the maximal leading run of decimal digits (greedy `\d+`). -/
def takeDigits : List Char → List Char × List Char
  | [] => ([], [])
  | c :: cs =>
    if c.isDigit then
      let r := takeDigits cs
      (c :: r.1, r.2)
    else ([], c :: cs)

/-- Decimal value of a digit run, as `int(digit_str)`. -/
def digitsToNat (ds : List Char) : ℕ :=
  ds.foldl (fun a c => 10 * a + (c.toNat - 48)) 0

/-- Try to match the pattern `lit (\d+) tail` at the start of `s`,
returning the captured number.  Greedy digit matching needs no
backtracking here because neither tail begins with a digit. -/
def matchAt (lit tail s : List Char) : Option ℕ :=
  match dropLit lit s with
  | none => none
  | some r1 =>
    let d := takeDigits r1
    if d.1.isEmpty then none
    else
      match dropLit tail d.2 with
      | none => none
      | some _ => some (digitsToNat d.1)

/-- Leftmost search for `lit (\d+) tail`, as `re.search`. -/
def searchPat (lit tail : List Char) : List Char → Option ℕ
  | [] => matchAt lit tail []
  | c :: cs =>
    match matchAt lit tail (c :: cs) with
    | some n => some n
    | none => searchPat lit tail cs

/-- `re.search(r"text_parts: (\d+)", msg)`, returning the captured count. -/
def searchTextParts (msg : String) : Option ℕ :=
  searchPat "text_parts: ".toList [] msg.toList

/-- `re.search(r"part-(\d+) created", msg)`, returning the captured index. -/
def searchPartCreated (msg : String) : Option ℕ :=
  searchPat "part-".toList " created".toList msg.toList

/-! ### The progress observer (`SharedState` and `QueueHandler.emit`) -/

/-- The `SharedState` object of `tts.py`: completed-chunk counter, total
chunk count, and last computed percentage. -/
structure SharedState where
  progress : ℕ
  total_parts : ℕ
  progress_percentage : ℚ
deriving DecidableEq, Repr

/-- The percentage computation of `QueueHandler.emit`:
`(progress / total_parts) * 100`, exact rational arithmetic standing for
Python's float division. -/
def computePct (p t : ℕ) : ℚ := ((p : ℚ) / (t : ℚ)) * 100

/-- The total-parts value in effect after the first regex of `emit` has been
processed on `msg`: the captured count if `text_parts: (\d+)` matches,
otherwise the stored one. -/
def effTotal (s : SharedState) (msg : String) : ℕ :=
  match searchTextParts msg with
  | some n => n
  | none => s.total_parts

/-- Outcome of one `QueueHandler.emit` call: the new shared state, the
values passed to `update_pb.emit`, and whether the surrounding
`except Exception: self.handleError(record)` path fired. -/
structure EmitResult where
  state : SharedState
  updates : List ℚ
  handled : Bool
deriving DecidableEq, Repr

/-- `QueueHandler.emit`: the first regex sets `total_parts`; the second
increments `progress` and then computes
`(progress / total_parts) * 100`, which raises `ZeroDivisionError` when
`total_parts = 0` — caught by the handler's own `except` clause after the
increment has already happened. -/
def emit (s : SharedState) (msg : String) : EmitResult :=
  let t := effTotal s msg
  match searchPartCreated msg with
  | none => ⟨⟨s.progress, t, s.progress_percentage⟩, [], false⟩
  | some _ =>
    let p := s.progress + 1
    if t = 0 then ⟨⟨p, t, s.progress_percentage⟩, [], true⟩
    else
      let pct := computePct p t
      ⟨⟨p, t, pct⟩, [pct], false⟩

/-- Feed a list of diagnostic messages through `emit` in order, collecting
every progress update issued. -/
def runEmits : SharedState → List String → SharedState × List ℚ
  | s, [] => (s, [])
  | s, m :: ms =>
    let r := emit s m
    let rest := runEmits r.state ms
    (rest.1, r.updates ++ rest.2)

/-! ### The conversion orchestrator (`Converter.convert`)

`Converter.convert` is sequential code whose observable effects are signal
emissions and file-system operations; it is embedded as a function
producing the ordered list of those effects.  External collaborators
(`clean_text`, `tts_word_count`, file reads, `gTTS(...).save`,
`os.remove`, `construct_filename`, the settings checkbox and the temp
directory) are parameters; fallible ones return `Except String`, the
error string standing for `str(e)` of the raised exception. -/

/-- One observable effect of a conversion run, in program order:
signal emissions (`op_msgs`, `view_pb`, `update_pb`, `revise_pb_label`),
the `clean_text` extraction call, a successful `gTTS(...).save` writing an
audio file, deletion of a temporary chunk file, and the three explicit
shared-state reset assignments of the split branch. -/
inductive Event where
  | op_msg (s : String)
  | view_pb (b : Bool)
  | update_pb (q : ℚ)
  | revise_pb_label (s : String)
  | extract (path : String)
  | synth (text : String) (output : String)
  | remove_file (path : String)
  | set_progress (n : ℕ)
  | set_total_parts (n : ℕ)
  | set_percentage (q : ℚ)
deriving DecidableEq, Repr

/-- The external collaborators and configuration of one conversion run. -/
structure Env where
  split_enabled : Bool
  clean_text : String → Except String String
  tts_word_count : String → String → Except String (List String)
  read_file : String → Except String String
  gtts_save : String → String → Except String Unit
  os_remove : String → Except String Unit
  construct_filename : String → String → String
  temp_dir : String

/-- The progress-bar label emitted at the top of each split-branch
iteration: `f"TTS Progress ({count}/{output_count}):"`. -/
def chunkLabel (count total : ℕ) : String :=
  "TTS Progress (" ++ toString count ++ "/" ++ toString total ++ "):"

/-- The completion message of one chunk:
`f"Conversion {count}/{output_count} complete. Output: {output_file}"`. -/
def chunkDoneMsg (count total : ℕ) (output_file : String) : String :=
  "Conversion " ++ toString count ++ "/" ++ toString total ++ " complete. Output: " ++ output_file

/-- The `for output_path in output_paths:` loop of the split branch.
`count` is the counter value before the iteration; the result pairs the
events emitted with the error text of the first exception, if any. -/
def chunkLoop (env : Env) (pdf : String) (total : ℕ) :
    ℕ → List String → List Event × Option String
  | _, [] => ([], none)
  | count, p :: rest =>
    let c := count + 1
    let lbl : Event := .revise_pb_label (chunkLabel c total)
    match env.read_file p with
    | .error e => ([lbl], some e)
    | .ok text =>
      let output_file := env.construct_filename pdf "tts_ps"
      match env.gtts_save text output_file with
      | .error e => ([lbl], some e)
      | .ok _ =>
        let done : List Event :=
          [lbl, .synth text output_file, .op_msg (chunkDoneMsg c total output_file),
           .update_pb 0, .set_progress 0, .set_total_parts 0, .set_percentage 0]
        match env.os_remove p with
        | .error e => (done, some e)
        | .ok _ =>
          let r := chunkLoop env pdf total c rest
          (done ++ [.remove_file p] ++ r.1, r.2)

/-- The body of the `try:` block of `Converter.convert`: extraction, the
split decision, and either the chunk loop or the single synthesis call. -/
def tryBody (env : Env) (pdf : String) : List Event × Option String :=
  match env.clean_text pdf with
  | .error e => ([.extract pdf], some e)
  | .ok text =>
    if env.split_enabled then
      let temp_file := env.temp_dir ++ "/tts-tempfile.txt"
      match env.tts_word_count text temp_file with
      | .error e => ([.extract pdf], some e)
      | .ok output_paths =>
        let r := chunkLoop env pdf output_paths.length 0 output_paths
        (.extract pdf :: r.1, r.2)
    else
      let output_file := env.construct_filename pdf "tts_ps"
      match env.gtts_save text output_file with
      | .error e => ([.extract pdf], some e)
      | .ok _ =>
        ([.extract pdf, .synth text output_file,
          .op_msg ("Conversion complete. Output: " ++ output_file)], none)

/-- `Converter.convert`: extension validation, the status/label/visibility
preamble, the `try:` body, the single `except Exception` error message,
and the final `view_pb.emit(False)`. -/
def convert (env : Env) (pdf : String) : List Event :=
  if validExt pdf = false then
    [.op_msg "Cannot TTS. Filetype is not TXT or PDF."]
  else
    let body := tryBody env pdf
    [.op_msg ("Converting " ++ pdf), .revise_pb_label "TTS Progress:", .view_pb true]
      ++ body.1
      ++ (match body.2 with
          | none => []
          | some e => [.op_msg ("Error converting " ++ pdf ++ ": " ++ e)])
      ++ [.view_pb false]

/-! ### Event classifiers -/

/-- A successful synthesis invocation (audio file written). -/
def isSynthEv : Event → Bool
  | .synth _ _ => true
  | _ => false

/-- The path removed by a `remove_file` event. -/
def removedPath : Event → Option String
  | .remove_file p => some p
  | _ => none

/-- An emitted error message: an `op_msgs` emission starting with
`"Error converting "`. -/
def isErrMsgEv : Event → Bool
  | .op_msg s => isPrefixL "Error converting ".toList s.toList
  | _ => false

/-- A progress-visibility emission. -/
def isViewPbEv : Event → Bool
  | .view_pb _ => true
  | _ => false

/-- An extraction (`clean_text`) call. -/
def isExtractEv : Event → Bool
  | .extract _ => true
  | _ => false

/-- A completion message: an `op_msgs` emission starting with
`"Conversion "`. -/
def isDoneMsgEv : Event → Bool
  | .op_msg s => isPrefixL "Conversion ".toList s.toList
  | _ => false

/-- Decidable equality for `Except`, so that concrete environments can be
evaluated inside `decide`. -/
instance {α β : Type} [DecidableEq α] [DecidableEq β] : DecidableEq (Except α β) :=
  fun a b =>
    match a, b with
    | .error x, .error y =>
      match decEq x y with
      | isTrue h => isTrue (by rw [h])
      | isFalse h => isFalse (fun hc => h (by cases hc; rfl))
    | .error _, .ok _ => isFalse (fun hc => Except.noConfusion hc)
    | .ok _, .error _ => isFalse (fun hc => Except.noConfusion hc)
    | .ok x, .ok y =>
      match decEq x y with
      | isTrue h => isTrue (by rw [h])
      | isFalse h => isFalse (fun hc => h (by cases hc; rfl))

/-! ### Descriptions of successful split-branch traces -/

/-- The events of one fully successful iteration of the split-branch loop,
in program order: label update, synthesis writing the audio file, the
`i/N` completion message, the progress reset (`update_pb.emit(0)` and the
three zero assignments), then deletion of the chunk's temporary file.
`count` is the 1-based chunk index and `text` the text read from the
chunk file. -/
def chunkEvents (env : Env) (pdf : String) (total count : ℕ) (p text : String) : List Event :=
  let output_file := env.construct_filename pdf "tts_ps"
  [.revise_pb_label (chunkLabel count total), .synth text output_file,
   .op_msg (chunkDoneMsg count total output_file),
   .update_pb 0, .set_progress 0, .set_total_parts 0, .set_percentage 0,
   .remove_file p]

/-- The events of a fully successful run of the split-branch loop over the
chunk files `ps`, where `rt p` is the text read back from chunk file `p`. -/
def successBlocks (env : Env) (pdf : String) (total : ℕ) (rt : String → String) :
    ℕ → List String → List Event
  | _, [] => []
  | count, p :: rest =>
    chunkEvents env pdf total (count + 1) p (rt p) ++
      successBlocks env pdf total rt (count + 1) rest

/-! ### Concrete environments used to instantiate the theorems -/

/-- A split-enabled environment in which every external call succeeds:
the chunker returns two chunk files, and reading chunk file `p` yields
`"t-" ++ p`. -/
def envS : Env where
  split_enabled := true
  clean_text := fun _ => .ok "TEXT"
  tts_word_count := fun _ _ => .ok ["p1", "p2"]
  read_file := fun p => .ok ("t-" ++ p)
  gtts_save := fun _ _ => .ok ()
  os_remove := fun _ => .ok ()
  construct_filename := fun p tag => p ++ "." ++ tag
  temp_dir := "temp"

/-- `envS` with splitting disabled. -/
def envN : Env := { envS with split_enabled := false }

/-- `envS` with synthesis failing on the text of the second chunk file. -/
def envF : Env :=
  { envS with gtts_save := fun t _ => if t = "t-p2" then .error "boom" else .ok () }

/-- `envS` with extraction failing. -/
def envE : Env := { envS with clean_text := fun _ => .error "cannot open file" }

/-! ### Concrete evaluations of the two regex searches -/

lemma search_tp_on_tp5 : searchTextParts "text_parts: 5" = some 5 := by decide

lemma search_pc_on_tp5 : searchPartCreated "text_parts: 5" = none := by decide

lemma search_tp_on_p1 : searchTextParts "part-1 created" = none := by decide

lemma search_tp_on_p2 : searchTextParts "part-2 created" = none := by decide

lemma search_tp_on_p3 : searchTextParts "part-3 created" = none := by decide

lemma search_pc_on_p1 : searchPartCreated "part-1 created" = some 1 := by decide

lemma search_pc_on_p2 : searchPartCreated "part-2 created" = some 2 := by decide

lemma search_pc_on_p3 : searchPartCreated "part-3 created" = some 3 := by decide

/-! ### Claims about the progress observer -/

/-- Claim C2: for every progress state with `totalChunks > 0` and
`0 ≤ completedChunks ≤ totalChunks`, the percentage computed by the
progress observer on a chunk-completion message equals
`100 × completedChunks / totalChunks` of the resulting counters. -/
theorem claim_C2_observer_percentage (s : SharedState) (msg : String) (n : ℕ)
    (hm : searchPartCreated msg = some n)
    (ht : 0 < effTotal s msg)
    (hle : s.progress + 1 ≤ effTotal s msg) :
    (emit s msg).state.progress_percentage =
      100 * ((emit s msg).state.progress : ℚ) / ((emit s msg).state.total_parts : ℚ) := by
  have ht0 : effTotal s msg ≠ 0 := Nat.pos_iff_ne_zero.mp ht
  simp only [emit, hm, ht0, if_false]
  have hcast : ((effTotal s msg : ℚ)) ≠ 0 := Nat.cast_ne_zero.mpr ht0
  simp only [computePct]
  field_simp
  ring

theorem claim_C2_observer_percentage_witness :
    searchPartCreated "part-1 created" = some 1 ∧
    0 < effTotal ⟨0, 5, 0⟩ "part-1 created" ∧
    (emit ⟨0, 5, 0⟩ "part-1 created").state.progress_percentage =
      100 * ((emit ⟨0, 5, 0⟩ "part-1 created").state.progress : ℚ) /
        ((emit ⟨0, 5, 0⟩ "part-1 created").state.total_parts : ℚ) :=
  ⟨by decide, by decide,
   claim_C2_observer_percentage ⟨0, 5, 0⟩ "part-1 created" 1 (by decide) (by decide) (by decide)⟩

/-- Claim C3 counterexample: the chunk-completion message `"part-1 created"`
processed while `total_parts = 0` increments the counter but notifies no
progress callback (the division raises and is swallowed), so the claim's
universal statement fails as written. -/
theorem claim_C3_counterexample :
    searchPartCreated "part-1 created" = some 1 ∧
    (emit ⟨0, 0, 0⟩ "part-1 created").updates = [] ∧
    (emit ⟨0, 0, 0⟩ "part-1 created").state.progress = 1 ∧
    (emit ⟨0, 0, 0⟩ "part-1 created").handled = true := by
  refine ⟨by decide, ?_, by decide, by decide⟩
  simp [emit, effTotal, search_pc_on_p1, search_tp_on_p1]

/-- Claim C3 (amended): for every diagnostic message matching the
chunk-completion pattern, provided the total-chunk count in effect is
positive, the observer increments `completedChunks` by exactly one,
recomputes the percentage and notifies the callback with it; and the
message `"text_parts: 5"` followed by `"part-1 created"`,
`"part-2 created"`, `"part-3 created"` yields updates 20, 40, 60 in that
order. -/
theorem claim_C3_part_created_updates :
    (∀ (s : SharedState) (msg : String) (n : ℕ),
        searchPartCreated msg = some n → 0 < effTotal s msg →
        (emit s msg).state.progress = s.progress + 1 ∧
        (emit s msg).updates = [computePct (s.progress + 1) (effTotal s msg)]) ∧
    (runEmits ⟨0, 0, 0⟩
        ["text_parts: 5", "part-1 created", "part-2 created", "part-3 created"]).2 =
      [20, 40, 60] := by
  constructor
  · intro s msg n hm ht
    have ht0 : effTotal s msg ≠ 0 := Nat.pos_iff_ne_zero.mp ht
    simp [emit, hm, ht0]
  · simp only [runEmits, emit, effTotal, search_tp_on_tp5, search_pc_on_tp5,
      search_tp_on_p1, search_pc_on_p1, search_tp_on_p2, search_pc_on_p2,
      search_tp_on_p3, search_pc_on_p3, computePct]
    norm_num

theorem claim_C3_part_created_updates_witness :
    searchPartCreated "part-1 created" = some 1 ∧
    0 < effTotal ⟨0, 5, 0⟩ "part-1 created" ∧
    ((emit ⟨0, 5, 0⟩ "part-1 created").state.progress = 0 + 1 ∧
     (emit ⟨0, 5, 0⟩ "part-1 created").updates =
       [computePct (0 + 1) (effTotal ⟨0, 5, 0⟩ "part-1 created")]) :=
  ⟨by decide, by decide,
   claim_C3_part_created_updates.1 ⟨0, 5, 0⟩ "part-1 created" 1 (by decide) (by decide)⟩

/-- Claim C7: a chunk-completion message arriving while the effective total
is zero makes the percentage computation fail; the failure is routed to the
handler's own error path (`handleError`), no update is issued, and
processing of subsequent messages continues from the mutated state — the
run is not aborted. -/
theorem claim_C7_observer_failure_nonfatal (s : SharedState) (msg : String) (n : ℕ)
    (rest : List String)
    (hm : searchPartCreated msg = some n)
    (ht : effTotal s msg = 0) :
    (emit s msg).handled = true ∧
    (emit s msg).updates = [] ∧
    (runEmits s (msg :: rest)).1 = (runEmits (emit s msg).state rest).1 ∧
    (runEmits s (msg :: rest)).2 = (runEmits (emit s msg).state rest).2 := by
  refine ⟨?_, ?_, ?_, ?_⟩ <;> simp [runEmits, emit, hm, ht]

theorem claim_C7_observer_failure_nonfatal_witness :
    searchPartCreated "part-1 created" = some 1 ∧
    effTotal ⟨0, 0, 0⟩ "part-1 created" = 0 ∧
    ((emit ⟨0, 0, 0⟩ "part-1 created").handled = true ∧
     (emit ⟨0, 0, 0⟩ "part-1 created").updates = [] ∧
     (runEmits ⟨0, 0, 0⟩ ["part-1 created", "text_parts: 2"]).1 =
       (runEmits (emit ⟨0, 0, 0⟩ "part-1 created").state ["text_parts: 2"]).1 ∧
     (runEmits ⟨0, 0, 0⟩ ["part-1 created", "text_parts: 2"]).2 =
       (runEmits (emit ⟨0, 0, 0⟩ "part-1 created").state ["text_parts: 2"]).2) :=
  ⟨by decide, by decide,
   claim_C7_observer_failure_nonfatal ⟨0, 0, 0⟩ "part-1 created" 1 ["text_parts: 2"]
     (by decide) (by decide)⟩

/-! ### Message classification lemmas

These hold by kernel reduction: only characters coming from the literal
prefixes are compared. -/

lemma isErrMsgEv_errorMsg (pdf e : String) :
    isErrMsgEv (.op_msg ("Error converting " ++ pdf ++ ": " ++ e)) = true := rfl

lemma isErrMsgEv_convertingMsg (pdf : String) :
    isErrMsgEv (.op_msg ("Converting " ++ pdf)) = false := rfl

lemma isErrMsgEv_doneMsg (c total : ℕ) (f : String) :
    isErrMsgEv (.op_msg (chunkDoneMsg c total f)) = false := rfl

lemma isErrMsgEv_completeMsg (f : String) :
    isErrMsgEv (.op_msg ("Conversion complete. Output: " ++ f)) = false := rfl

lemma isDoneMsgEv_completeMsg (f : String) :
    isDoneMsgEv (.op_msg ("Conversion complete. Output: " ++ f)) = true := rfl

lemma isDoneMsgEv_convertingMsg (pdf : String) :
    isDoneMsgEv (.op_msg ("Converting " ++ pdf)) = false := rfl

lemma isDoneMsgEv_errorMsg (pdf e : String) :
    isDoneMsgEv (.op_msg ("Error converting " ++ pdf ++ ": " ++ e)) = false := rfl

lemma isDoneMsgEv_view (b : Bool) : isDoneMsgEv (.view_pb b) = false := rfl

lemma isDoneMsgEv_synth (t o : String) : isDoneMsgEv (.synth t o) = false := rfl

lemma isDoneMsgEv_extract (p : String) : isDoneMsgEv (.extract p) = false := rfl

lemma isDoneMsgEv_revise (s : String) : isDoneMsgEv (.revise_pb_label s) = false := rfl

/-! ### Structural lemmas about the split-branch loop -/

/-- When every read, save and removal succeeds, the loop emits exactly the
per-chunk success blocks and raises nothing. -/
lemma chunkLoop_success (env : Env) (pdf : String) (total : ℕ) (rt : String → String)
    (hsave : ∀ t f, env.gtts_save t f = .ok ())
    (hrem : ∀ p, env.os_remove p = .ok ()) :
    ∀ (ps : List String) (count : ℕ), (∀ p ∈ ps, env.read_file p = .ok (rt p)) →
      chunkLoop env pdf total count ps = (successBlocks env pdf total rt count ps, none) := by
  intro ps
  induction ps with
  | nil => intro count _; rfl
  | cons p rest ih =>
    intro count hread
    have hp : env.read_file p = .ok (rt p) := hread p (by simp)
    have hr : ∀ q ∈ rest, env.read_file q = .ok (rt q) := fun q hq => hread q (by simp [hq])
    simp [chunkLoop, successBlocks, chunkEvents, hp, hsave, hrem, ih (count + 1) hr]

/-- Every synthesis event of the loop writes to the path built from the
source name and the fixed tag, whatever the run's outcome. -/
lemma chunkLoop_synth_output (env : Env) (pdf : String) (total : ℕ) :
    ∀ (ps : List String) (count : ℕ) (t o : String),
      Event.synth t o ∈ (chunkLoop env pdf total count ps).1 →
      o = env.construct_filename pdf "tts_ps" := by
  intro ps
  induction ps with
  | nil => intro count t o h; simp [chunkLoop] at h
  | cons p rest ih =>
    intro count t o h
    rcases hread : env.read_file p with e | text
    · simp [chunkLoop, hread] at h
    · rcases hsave : env.gtts_save text (env.construct_filename pdf "tts_ps") with e | u
      · simp [chunkLoop, hread, hsave] at h
      · rcases hrem : env.os_remove p with e | u
        · simp [chunkLoop, hread, hsave, hrem] at h
          exact h.2
        · simp [chunkLoop, hread, hsave, hrem] at h
          rcases h with h | h
          · exact h.2
          · exact ih (count + 1) t o h

/-- No event produced inside the loop is an error message. -/
lemma chunkLoop_no_errMsg (env : Env) (pdf : String) (total : ℕ) :
    ∀ (ps : List String) (count : ℕ) (ev : Event),
      ev ∈ (chunkLoop env pdf total count ps).1 → isErrMsgEv ev = false := by
  intro ps
  induction ps with
  | nil => intro count ev h; simp [chunkLoop] at h
  | cons p rest ih =>
    intro count ev h
    rcases hread : env.read_file p with e | text
    · simp [chunkLoop, hread] at h
      subst h; rfl
    · rcases hsave : env.gtts_save text (env.construct_filename pdf "tts_ps") with e | u
      · simp [chunkLoop, hread, hsave] at h
        subst h; rfl
      · rcases hrem : env.os_remove p with e | u
        · simp [chunkLoop, hread, hsave, hrem] at h
          rcases h with h | h | h | h | h | h | h <;> subst h
          · rfl
          · rfl
          · exact isErrMsgEv_doneMsg _ _ _
          · rfl
          · rfl
          · rfl
          · rfl
        · simp [chunkLoop, hread, hsave, hrem] at h
          rcases h with h | h | h | h | h | h | h | h | h
          · subst h; rfl
          · subst h; rfl
          · subst h; exact isErrMsgEv_doneMsg _ _ _
          · subst h; rfl
          · subst h; rfl
          · subst h; rfl
          · subst h; rfl
          · subst h; rfl
          · exact ih (count + 1) ev h

/-- When reads and removals succeed, the saves succeed for every chunk file
before `pfail`, and the save of `pfail`'s text raises `e`, the loop emits
the success blocks of the earlier chunks followed by `pfail`'s label, and
propagates `e`. -/
lemma chunkLoop_fail (env : Env) (pdf : String) (total : ℕ) (rt : String → String)
    (pfail : String) (post : List String) (e : String)
    (hsavefail : env.gtts_save (rt pfail) (env.construct_filename pdf "tts_ps") = .error e)
    (hrem : ∀ p, env.os_remove p = .ok ()) :
    ∀ (pre : List String) (count : ℕ),
      (∀ p ∈ pre ++ pfail :: post, env.read_file p = .ok (rt p)) →
      (∀ p ∈ pre, env.gtts_save (rt p) (env.construct_filename pdf "tts_ps") = .ok ()) →
      chunkLoop env pdf total count (pre ++ pfail :: post) =
        (successBlocks env pdf total rt count pre ++
          [.revise_pb_label (chunkLabel (count + pre.length + 1) total)], some e) := by
  intro pre
  induction pre with
  | nil =>
    intro count hread _hsave
    have hp : env.read_file pfail = .ok (rt pfail) := hread pfail (by simp)
    simp [chunkLoop, successBlocks, hp, hsavefail]
  | cons q pre' ih =>
    intro count hread hsave
    have hq : env.read_file q = .ok (rt q) := hread q (by simp)
    have hsq : env.gtts_save (rt q) (env.construct_filename pdf "tts_ps") = .ok () :=
      hsave q (by simp)
    have hr : ∀ p ∈ pre' ++ pfail :: post, env.read_file p = .ok (rt p) := fun p hp =>
      hread p (by rw [List.cons_append]; exact List.mem_cons_of_mem q hp)
    have hs : ∀ p ∈ pre', env.gtts_save (rt p) (env.construct_filename pdf "tts_ps") = .ok () :=
      fun p hp => hsave p (List.mem_cons_of_mem q hp)
    have harith : count + (q :: pre').length + 1 = (count + 1) + pre'.length + 1 := by
      simp [List.length_cons]; omega
    rw [List.cons_append, harith]
    simp [chunkLoop, successBlocks, chunkEvents, hq, hsq, hrem, ih (count + 1) hr hs]

/-- The success blocks contain one synthesis event per chunk. -/
lemma successBlocks_countP_synth (env : Env) (pdf : String) (total : ℕ) (rt : String → String) :
    ∀ (ps : List String) (count : ℕ),
      (successBlocks env pdf total rt count ps).countP isSynthEv = ps.length := by
  intro ps
  induction ps with
  | nil => intro count; rfl
  | cons p rest ih =>
    intro count
    simp [successBlocks, chunkEvents, List.countP_append, List.countP_cons, isSynthEv,
      ih (count + 1)]

/-- The success blocks remove exactly the chunk files, in order. -/
lemma successBlocks_filterMap_removed (env : Env) (pdf : String) (total : ℕ)
    (rt : String → String) :
    ∀ (ps : List String) (count : ℕ),
      (successBlocks env pdf total rt count ps).filterMap removedPath = ps := by
  intro ps
  induction ps with
  | nil => intro count; rfl
  | cons p rest ih =>
    intro count
    simp [successBlocks, chunkEvents, List.filterMap_append, removedPath, ih (count + 1)]

lemma removedPath_eq_some {ev : Event} {x : String} :
    removedPath ev = some x ↔ ev = .remove_file x := by
  cases ev <;> simp [removedPath]

/-- A file's removal event occurs exactly when the file appears among the
removed paths of the trace. -/
lemma mem_removeEv_iff (l : List Event) (x : String) :
    Event.remove_file x ∈ l ↔ x ∈ l.filterMap removedPath := by
  simp [List.mem_filterMap, removedPath_eq_some]

/-- Every synthesis event of the try-block body writes to the path built
from the source name and the fixed tag. -/
lemma tryBody_synth_output (env : Env) (pdf : String) (t o : String)
    (h : Event.synth t o ∈ (tryBody env pdf).1) :
    o = env.construct_filename pdf "tts_ps" := by
  rcases hclean : env.clean_text pdf with e | text
  · simp [tryBody, hclean] at h
  · cases hsp : env.split_enabled with
    | true =>
      rcases hchunk : env.tts_word_count text (env.temp_dir ++ "/tts-tempfile.txt")
          with e | ps
      · simp [tryBody, hclean, hsp, hchunk] at h
      · simp [tryBody, hclean, hsp, hchunk] at h
        exact chunkLoop_synth_output env pdf _ _ 0 t o h
    | false =>
      rcases hsave : env.gtts_save text (env.construct_filename pdf "tts_ps") with e | u
      · simp [tryBody, hclean, hsp, hsave] at h
      · simp [tryBody, hclean, hsp, hsave] at h
        exact h.2

/-- No event produced by the try-block body is an error message. -/
lemma tryBody_no_errMsg (env : Env) (pdf : String) (ev : Event)
    (h : ev ∈ (tryBody env pdf).1) : isErrMsgEv ev = false := by
  rcases hclean : env.clean_text pdf with e | text
  · simp [tryBody, hclean] at h
    subst h; rfl
  · cases hsp : env.split_enabled with
    | true =>
      rcases hchunk : env.tts_word_count text (env.temp_dir ++ "/tts-tempfile.txt")
          with e | ps
      · simp [tryBody, hclean, hsp, hchunk] at h
        subst h; rfl
      · simp [tryBody, hclean, hsp, hchunk] at h
        rcases h with h | h
        · subst h; rfl
        · exact chunkLoop_no_errMsg env pdf _ _ 0 ev h
    | false =>
      rcases hsave : env.gtts_save text (env.construct_filename pdf "tts_ps") with e | u
      · simp [tryBody, hclean, hsp, hsave] at h
        subst h; rfl
      · simp [tryBody, hclean, hsp, hsave] at h
        rcases h with h | h | h <;> subst h
        · rfl
        · rfl
        · exact isErrMsgEv_completeMsg _

lemma isErrMsgEv_revise (s : String) : isErrMsgEv (.revise_pb_label s) = false := rfl

lemma isErrMsgEv_view (b : Bool) : isErrMsgEv (.view_pb b) = false := rfl

lemma isErrMsgEv_extract (p : String) : isErrMsgEv (.extract p) = false := rfl

/-! ### Claims about the conversion orchestrator -/

/-- Claim C1: with splitting enabled and a chunker returning the chunk
files `ps`, a run in which every external call succeeds performs exactly
`ps.length` synthesis invocations, one per chunk in the chunker's order —
each followed by its completion message, the progress reset
(`update_pb.emit(0)` and the three zero assignments) and the deletion of
the chunk's temporary file before the next chunk begins — as laid out by
`successBlocks`; the removed files are exactly `ps` in order. -/
theorem claim_C1_split_run (env : Env) (pdf text : String) (ps : List String)
    (rt : String → String)
    (hv : validExt pdf = true) (hsplit : env.split_enabled = true)
    (hclean : env.clean_text pdf = .ok text)
    (hchunk : env.tts_word_count text (env.temp_dir ++ "/tts-tempfile.txt") = .ok ps)
    (hread : ∀ p ∈ ps, env.read_file p = .ok (rt p))
    (hsave : ∀ t f, env.gtts_save t f = .ok ())
    (hrem : ∀ p, env.os_remove p = .ok ()) :
    convert env pdf =
      [.op_msg ("Converting " ++ pdf), .revise_pb_label "TTS Progress:", .view_pb true,
       .extract pdf] ++ successBlocks env pdf ps.length rt 0 ps ++ [.view_pb false] ∧
    (convert env pdf).countP isSynthEv = ps.length ∧
    (convert env pdf).filterMap removedPath = ps := by
  have hloop := chunkLoop_success env pdf ps.length rt hsave hrem ps 0 hread
  have h1 : convert env pdf =
      [.op_msg ("Converting " ++ pdf), .revise_pb_label "TTS Progress:", .view_pb true,
       .extract pdf] ++ successBlocks env pdf ps.length rt 0 ps ++ [.view_pb false] := by
    simp [convert, tryBody, hv, hsplit, hclean, hchunk, hloop]
  refine ⟨h1, ?_, ?_⟩
  · rw [h1]
    simp [List.countP_append, List.countP_cons, isSynthEv, successBlocks_countP_synth]
  · rw [h1]
    simp [List.filterMap_append, List.filterMap_cons, removedPath,
      successBlocks_filterMap_removed]

theorem claim_C1_split_run_witness :
    (∀ p ∈ ["p1", "p2"], envS.read_file p = Except.ok ("t-" ++ p)) ∧
    (convert envS "a.pdf").countP isSynthEv = 2 ∧
    (convert envS "a.pdf").filterMap removedPath = ["p1", "p2"] := by
  refine ⟨by decide, ?_, ?_⟩
  · exact (claim_C1_split_run envS "a.pdf" "TEXT" ["p1", "p2"] (fun p => "t-" ++ p)
      (by decide) rfl rfl rfl (by decide) (fun _ _ => rfl) (fun _ => rfl)).2.1
  · exact (claim_C1_split_run envS "a.pdf" "TEXT" ["p1", "p2"] (fun p => "t-" ++ p)
      (by decide) rfl rfl rfl (by decide) (fun _ _ => rfl) (fun _ => rfl)).2.2

/-- Claim C4: whenever the try-block raises (extraction, chunking,
synthesis or cleanup), the orchestrator emits exactly one error message,
formed from the source filename and the exception text, and that message
occurs in the trace; if extraction itself failed, no audio file is
written. -/
theorem claim_C4_single_error_message (env : Env) (pdf e : String)
    (hv : validExt pdf = true)
    (herr : (tryBody env pdf).2 = some e) :
    (convert env pdf).countP isErrMsgEv = 1 ∧
    Event.op_msg ("Error converting " ++ pdf ++ ": " ++ e) ∈ convert env pdf ∧
    (∃ a b, "Error converting " ++ pdf ++ ": " ++ e = a ++ pdf ++ b) ∧
    (∃ c, "Error converting " ++ pdf ++ ": " ++ e = c ++ e) ∧
    (env.clean_text pdf = .error e → (convert env pdf).countP isSynthEv = 0) := by
  have h1 : convert env pdf =
      [.op_msg ("Converting " ++ pdf), .revise_pb_label "TTS Progress:", .view_pb true]
        ++ (tryBody env pdf).1
        ++ [.op_msg ("Error converting " ++ pdf ++ ": " ++ e), .view_pb false] := by
    simp [convert, hv, herr]
  have hT : (tryBody env pdf).1.countP isErrMsgEv = 0 := by
    rw [List.countP_eq_zero]
    intro a ha
    simp [tryBody_no_errMsg env pdf a ha]
  refine ⟨?_, ?_, ?_, ?_, ?_⟩
  · rw [h1]
    simp [List.countP_append, List.countP_cons, List.countP_nil, hT,
      isErrMsgEv_convertingMsg, isErrMsgEv_errorMsg, isErrMsgEv_revise, isErrMsgEv_view]
  · rw [h1]; simp
  · exact ⟨"Error converting ", ": " ++ e, by rw [String.append_assoc]⟩
  · exact ⟨"Error converting " ++ pdf ++ ": ", rfl⟩
  · intro hcl
    have h2 : convert env pdf =
        [.op_msg ("Converting " ++ pdf), .revise_pb_label "TTS Progress:", .view_pb true,
         .extract pdf, .op_msg ("Error converting " ++ pdf ++ ": " ++ e), .view_pb false] := by
      simp [convert, tryBody, hv, hcl]
    rw [h2]
    simp [List.countP_cons, isSynthEv]

theorem claim_C4_single_error_message_witness :
    (tryBody envE "broken.pdf").2 = some "cannot open file" ∧
    envE.clean_text "broken.pdf" = Except.error "cannot open file" ∧
    (convert envE "broken.pdf").countP isErrMsgEv = 1 ∧
    (∃ a b, "Error converting " ++ "broken.pdf" ++ ": " ++ "cannot open file" =
      a ++ "broken.pdf" ++ b) ∧
    (convert envE "broken.pdf").countP isSynthEv = 0 := by
  have h := claim_C4_single_error_message envE "broken.pdf" "cannot open file"
    (by decide) rfl
  exact ⟨rfl, rfl, h.1, h.2.2.1, h.2.2.2.2 rfl⟩

/-- Claim C5 counterexample: a run rejected for its file type emits only
the rejection message and never touches the progress-visibility signal, so
the visibility signal is not set to hidden as the final step of that
run. -/
theorem claim_C5_counterexample :
    convert envS "report.docx" = [.op_msg "Cannot TTS. Filetype is not TXT or PDF."] ∧
    (convert envS "report.docx").countP isViewPbEv = 0 := by
  constructor
  · decide
  · decide

/-- Claim C5 (amended): on every run that passes the file-type validation
the progress-visibility signal is set to hidden as the final step,
regardless of success or failure; a run rejected by validation emits no
visibility signal at all. -/
theorem claim_C5_visibility_hidden_last (env : Env) (pdf : String) :
    (validExt pdf = true → (convert env pdf).getLast? = some (.view_pb false)) ∧
    (validExt pdf = false → (convert env pdf).countP isViewPbEv = 0) := by
  constructor
  · intro hv
    unfold convert
    rw [hv, if_neg (by simp)]
    exact List.getLast?_concat _
  · intro hv
    simp [convert, hv, List.countP_cons, isViewPbEv]

theorem claim_C5_visibility_hidden_last_witness :
    validExt "a.pdf" = true ∧
    (convert envE "a.pdf").getLast? = some (.view_pb false) :=
  ⟨by decide, (claim_C5_visibility_hidden_last envE "a.pdf").1 (by decide)⟩

/-- Claim C6: a source whose lowercased name ends in neither `.pdf` nor
`.txt` is rejected before anything else happens: the trace is exactly the
rejection message — which contains `"is not TXT or PDF"` — with no
extraction call, no synthesis and no output file. -/
theorem claim_C6_filetype_rejection (env : Env) (pdf : String)
    (hv : validExt pdf = false) :
    convert env pdf = [.op_msg "Cannot TTS. Filetype is not TXT or PDF."] ∧
    (convert env pdf).countP isSynthEv = 0 ∧
    (convert env pdf).countP isExtractEv = 0 ∧
    (∃ a b, "Cannot TTS. Filetype is not TXT or PDF." = a ++ "is not TXT or PDF" ++ b) := by
  have h1 : convert env pdf = [.op_msg "Cannot TTS. Filetype is not TXT or PDF."] := by
    simp [convert, hv]
  refine ⟨h1, ?_, ?_, ⟨"Cannot TTS. Filetype ", ".", by decide⟩⟩
  · rw [h1]; decide
  · rw [h1]; decide

theorem claim_C6_filetype_rejection_witness :
    validExt "report.docx" = false ∧
    convert envN "report.docx" = [.op_msg "Cannot TTS. Filetype is not TXT or PDF."] ∧
    (convert envN "report.docx").countP isSynthEv = 0 :=
  ⟨by decide, (claim_C6_filetype_rejection envN "report.docx" (by decide)).1,
   (claim_C6_filetype_rejection envN "report.docx" (by decide)).2.1⟩

/-- Claim C8: with splitting disabled, a run that passes validation,
extraction and synthesis performs exactly one synthesis invocation,
producing the single output path built from the source name and the fixed
tag with no index suffix, followed by a single completion message naming
that output file. -/
theorem claim_C8_single_synthesis (env : Env) (pdf text : String)
    (hv : validExt pdf = true)
    (hsplit : env.split_enabled = false)
    (hclean : env.clean_text pdf = .ok text)
    (hsave : env.gtts_save text (env.construct_filename pdf "tts_ps") = .ok ()) :
    convert env pdf =
      [.op_msg ("Converting " ++ pdf), .revise_pb_label "TTS Progress:", .view_pb true,
       .extract pdf, .synth text (env.construct_filename pdf "tts_ps"),
       .op_msg ("Conversion complete. Output: " ++ env.construct_filename pdf "tts_ps"),
       .view_pb false] ∧
    (convert env pdf).countP isSynthEv = 1 ∧
    (convert env pdf).countP isDoneMsgEv = 1 := by
  have h1 : convert env pdf =
      [.op_msg ("Converting " ++ pdf), .revise_pb_label "TTS Progress:", .view_pb true,
       .extract pdf, .synth text (env.construct_filename pdf "tts_ps"),
       .op_msg ("Conversion complete. Output: " ++ env.construct_filename pdf "tts_ps"),
       .view_pb false] := by
    simp [convert, tryBody, hv, hsplit, hclean, hsave]
  refine ⟨h1, ?_, ?_⟩
  · rw [h1]
    simp [List.countP_cons, isSynthEv]
  · rw [h1]
    simp [List.countP_cons, List.countP_nil, isDoneMsgEv_completeMsg,
      isDoneMsgEv_convertingMsg, isDoneMsgEv_errorMsg, isDoneMsgEv_view,
      isDoneMsgEv_synth, isDoneMsgEv_extract, isDoneMsgEv_revise]

theorem claim_C8_single_synthesis_witness :
    envN.split_enabled = false ∧
    (convert envN "a.pdf").countP isSynthEv = 1 ∧
    (convert envN "a.pdf").countP isDoneMsgEv = 1 :=
  ⟨rfl, (claim_C8_single_synthesis envN "a.pdf" "TEXT" (by decide) rfl rfl rfl).2.1,
   (claim_C8_single_synthesis envN "a.pdf" "TEXT" (by decide) rfl rfl rfl).2.2⟩

/-- Claim C9: every synthesis event of any run — split or not, whatever
the chunk index — writes to the path built by the filename constructor
from exactly the source path and the fixed tag `"tts_ps"`; no chunk index
enters the construction, so the destination is independent of the chunk
index. -/
theorem claim_C9_output_path_no_index (env : Env) (pdf t o : String)
    (h : Event.synth t o ∈ convert env pdf) :
    o = env.construct_filename pdf "tts_ps" := by
  cases hv : validExt pdf with
  | false => simp [convert, hv] at h
  | true =>
    rcases herr : (tryBody env pdf).2 with _ | e
    · simp [convert, hv, herr] at h
      exact tryBody_synth_output env pdf t o h
    · simp [convert, hv, herr] at h
      exact tryBody_synth_output env pdf t o h

theorem claim_C9_output_path_no_index_witness :
    Event.synth "t-p1" "a.pdf.tts_ps" ∈ convert envS "a.pdf" ∧
    "a.pdf.tts_ps" = envS.construct_filename "a.pdf" "tts_ps" :=
  ⟨by decide, claim_C9_output_path_no_index envS "a.pdf" "t-p1" "a.pdf.tts_ps" (by decide)⟩

/-- Claim C10: when synthesis raises on the chunk file `pfail` (after the
chunk files `pre` were fully processed), the error path performs no
cleanup: only the files of `pre` are ever removed, and neither `pfail` nor
any later chunk file is deleted. -/
theorem claim_C10_no_cleanup_on_error (env : Env) (pdf text e pfail : String)
    (pre post : List String) (rt : String → String)
    (hv : validExt pdf = true) (hsplit : env.split_enabled = true)
    (hclean : env.clean_text pdf = .ok text)
    (hchunk : env.tts_word_count text (env.temp_dir ++ "/tts-tempfile.txt") =
      .ok (pre ++ pfail :: post))
    (hread : ∀ p ∈ pre ++ pfail :: post, env.read_file p = .ok (rt p))
    (hsave : ∀ p ∈ pre, env.gtts_save (rt p) (env.construct_filename pdf "tts_ps") = .ok ())
    (hsavefail : env.gtts_save (rt pfail) (env.construct_filename pdf "tts_ps") = .error e)
    (hrem : ∀ p, env.os_remove p = .ok ()) :
    (convert env pdf).filterMap removedPath = pre ∧
    (pfail ∉ pre → Event.remove_file pfail ∉ convert env pdf) ∧
    (∀ q ∈ post, q ∉ pre → Event.remove_file q ∉ convert env pdf) := by
  have hloop := chunkLoop_fail env pdf (pre ++ pfail :: post).length rt pfail post e
    hsavefail hrem pre 0 hread hsave
  simp only [List.length_append, List.length_cons, Nat.zero_add] at hloop
  have h1 : convert env pdf =
      [.op_msg ("Converting " ++ pdf), .revise_pb_label "TTS Progress:", .view_pb true,
       .extract pdf]
        ++ (successBlocks env pdf (pre ++ pfail :: post).length rt 0 pre
            ++ [.revise_pb_label
                  (chunkLabel (pre.length + 1) (pre ++ pfail :: post).length)])
        ++ [.op_msg ("Error converting " ++ pdf ++ ": " ++ e), .view_pb false] := by
    simp [convert, tryBody, hv, hsplit, hclean, hchunk, hloop]
  have hfm : (convert env pdf).filterMap removedPath = pre := by
    rw [h1]
    simp [List.filterMap_append, List.filterMap_cons, removedPath,
      successBlocks_filterMap_removed]
  refine ⟨hfm, fun hnp hmem => ?_, fun q _hq hnq hmem => ?_⟩
  · rw [mem_removeEv_iff, hfm] at hmem
    exact hnp hmem
  · rw [mem_removeEv_iff, hfm] at hmem
    exact hnq hmem

theorem claim_C10_no_cleanup_on_error_witness :
    envF.gtts_save ("t-" ++ "p2") (envF.construct_filename "a.pdf" "tts_ps") =
      Except.error "boom" ∧
    (convert envF "a.pdf").filterMap removedPath = ["p1"] ∧
    Event.remove_file "p2" ∉ convert envF "a.pdf" := by
  have h := claim_C10_no_cleanup_on_error envF "a.pdf" "TEXT" "boom" "p2" ["p1"] []
    (fun p => "t-" ++ p) (by decide) rfl rfl rfl (by decide) (by decide) (by decide)
    (fun _ => rfl)
  exact ⟨by decide, h.1, h.2.1 (by decide)⟩

end PdfpTTS
